import Mathlib

/-!
Verification of the directory fingerprinting engine of `checkSumDirs.py`
(repository sderose/FileManagement), against its natural-language
specification.

The Python source is shallowly embedded below.  Filesystem state is an
explicit inductive tree (`FSNode`); fallible operations return
`Except Err`; the sha-256 digest is idealized as an injective constructor
(`Digest.fileHash` / `Digest.strHash`), which is sound for every claim
treated here since none depends on hash collisions; Python `time.ctime`
is likewise modelled by an injective rendering function `pyCtime`.
Recursion depth is bounded by an explicit `fuel` argument, which models
the Python interpreter recursion limit (`RecursionError`); every theorem
either quantifies over `fuel` or supplies enough of it for the tree at
hand.
-/

namespace CheckSumDirs

/-- The ten public fields of a Python `os.stat_result`, in the order in
which the structseq exposes them as a tuple:
`(st_mode, st_ino, st_dev, st_nlink, st_uid, st_gid, st_size, st_atime,
st_mtime, st_ctime)`. -/
structure Stat where
  mode : Int
  ino : Int
  dev : Int
  nlink : Int
  uid : Int
  gid : Int
  size : Int
  atime : Int
  mtime : Int
  ctime : Int
deriving DecidableEq, Repr

/-- Per-entry filesystem attributes that the script observes via
`os.path.islink`, `os.path.ismount` and `os.stat`.  A symbolic link to a
directory is represented as a `dir` node whose `isLink` flag is true,
matching the fact that `os.path.isdir` and `DirEntry.is_dir()` follow
symlinks while `os.path.islink` reports the link itself. -/
structure Attrs where
  isLink : Bool
  isMount : Bool
  stat : Stat
deriving DecidableEq, Repr

/-- A filesystem subtree.  `file` carries a `readable` flag (false models a
file whose `open`/`read` raises) and its byte content as a string;
`dir` carries the `os.listdir` listing in on-disk order. -/
inductive FSNode where
  | file (attrs : Attrs) (readable : Bool) (content : String)
  | dir (attrs : Attrs) (children : List (String × FSNode))

/-- `os.path.isdir` / `DirEntry.is_dir()`: true for directories, also for
symlinks that resolve to directories (our `dir` nodes regardless of
`isLink`). -/
def isDirNode : FSNode → Bool
  | .file _ _ _ => false
  | .dir _ _ => true

/-- `os.path.islink`. -/
def isLinkNode : FSNode → Bool
  | .file a _ _ => a.isLink
  | .dir a _ => a.isLink

/-- `os.path.ismount`. -/
def isMountNode : FSNode → Bool
  | .file a _ _ => a.isMount
  | .dir a _ => a.isMount

/-- `os.stat` on the entry (the model stores post-resolution attributes). -/
def statOf : FSNode → Stat
  | .file a _ _ => a.stat
  | .dir a _ => a.stat

/-- True exactly for a `file` node whose open or read would fail
(`get_digest` raising mid-stream). -/
def unreadableFile : FSNode → Bool
  | .file _ r _ => !r
  | .dir _ _ => false

/-- The command-line options of `checkSumDirs.py` that the engine reads.
Note: the script reads `args.dirs` inside `get_dir_digest`, but
`processOptions` defines no `--dirs` option, so in the unmodified program
that access raises `AttributeError`; the model grants the attribute as a
plain string so that the intended strategies can be examined. -/
structure Options where
  hiddenFiles : Bool
  backupFiles : Bool
  links : Bool
  recursive : Bool
  ctime : Bool
  noVolumeID : Bool
  outfile : String
  dirs : String
deriving DecidableEq, Repr

/-- The defaults established by `processOptions` (booleans default false,
`--ctime` defaults true, `--outfile` defaults ".checkSums"); `noVolumeID`
is set here so that the platform-specific volume lookup is bypassed, and
`dirs` is the missing-attribute placeholder discussed on `Options`. -/
def defOpts : Options :=
  { hiddenFiles := false, backupFiles := false, links := false,
    recursive := false, ctime := true, noVolumeID := true,
    outfile := ".checkSums", dirs := "" }

/-- Python exceptions that can escape the embedded operations. -/
inductive Err where
  | notADirectory
  | unreadable
  | valueError
  | recursionError
deriving DecidableEq, Repr

/-- A digest value as it ends up in the manifest.  `num 0` is the integer
zero the script records when no digest is computed, `none` is Python
`None` (the fall-through of the `APX` branch), and the two hash
constructors idealize `hashlib.sha256(...).hexdigest()` of file content
respectively of a string, with the hex hash abstracted as an injective
function of its input. -/
inductive Digest where
  | num (n : Nat)
  | none
  | fileHash (content : String)
  | strHash (s : String)
deriving DecidableEq, Repr

/-- One emitted manifest row: name, modTime, size, inode and digest saved
for an included entry (source lines 199-210).  `modTime` holds the value
`s[stat.ST_MTIME]` captured before the rendering branch. -/
structure Row where
  modTime : Int
  size : Int
  ino : Int
  name : String
  dsig : Digest
deriving DecidableEq, Repr

/-- The skip counters accumulated by the `doOneDir` listing loop
(source lines 171-175). -/
structure Counts where
  totalFiles : Nat
  hiddenFiles : Nat
  backupFiles : Nat
  symlinks : Nat
  subdirs : Nat
deriving DecidableEq, Repr

/-- The structured content of the JSON object `doOneDir` emits
(source lines 217-235); `encodeManifest` below renders it to the exact
text. -/
structure Manifest where
  time : String
  volumeSerialNumber : String
  inode : Int
  path : String
  totalFiles : Nat
  hiddenFiles : Nat
  backupFiles : Nat
  symlinks : Nat
  subdirs : Nat
  rows : List Row
deriving DecidableEq, Repr

/-! ### String helpers mirroring Python primitives -/

/-- `"%Nd" % x` and `"%Ns" % s`: right-justify in a field of width `w`. -/
def padLeft (w : Nat) (s : String) : String :=
  if s.length < w then String.mk (List.replicate (w - s.length) ' ') ++ s
  else s

/-- `os.path.join(p, f)` for an absolute, non-slash-terminated `p` and a
relative component `f`, which is the only shape the script produces. -/
def joinPath (p f : String) : String := p ++ "/" ++ f

/-- First character equals `c` (Python `s[0] == c` on the nonempty
strings the script feeds these tests; false on empty). -/
def firstIs (s : String) (c : Char) : Bool :=
  match s.toList with
  | [] => false
  | x :: _ => x == c

/-- Last character equals `c` (Python `s[-1] == c`, same proviso). -/
def lastIs (s : String) (c : Char) : Bool :=
  match s.toList.getLast? with
  | some x => x == c
  | Option.none => false

/-- Character-list prefix test (Python `s.startswith`, specialized). -/
def leadsWith : List Char → List Char → Bool
  | [], _ => true
  | _ :: _, [] => false
  | p :: ps, s :: ss => p == s && leadsWith ps ss

/-- `s[0:-2]`: drop the final two characters (empty stays empty). -/
def chopLast2 (s : String) : String :=
  String.mk (s.toList.take (s.toList.length - 2))

/-- `"\n".join(l)`. -/
def joinNL : List String → String
  | [] => ""
  | [s] => s
  | s :: rest => s ++ "\n" ++ joinNL rest

/-- Lexicographic less-or-equal on character lists by code point, the
order Python string comparison uses. -/
def charListLe : List Char → List Char → Bool
  | [], _ => true
  | _ :: _, [] => false
  | a :: as, b :: bs =>
    if a.toNat < b.toNat then true
    else if b.toNat < a.toNat then false
    else charListLe as bs

/-- Python `<=` on strings. -/
def strLeB (a b : String) : Bool := charListLe a.toList b.toList

/-- Insert into an ascending list, keeping earlier equals first (stable). -/
def insertSorted (s : String) : List String → List String
  | [] => [s]
  | x :: xs => if strLeB s x then s :: x :: xs else x :: insertSorted s xs

/-- Python `sorted` on strings: ascending lexicographic order by code
point (Lean string order coincides on these inputs). -/
def sortNames (l : List String) : List String := l.foldr insertSorted []

/-- Index of the last occurrence of `c`, or `-1` when absent
(Python `str.rfind`). -/
def lastIndexOf (c : Char) (cs : List Char) : Int :=
  cs.enum.foldl (fun acc q => if q.2 == c then (q.1 : Int) else acc) (-1)

/-- `os.path.splitext`: split off the extension at the last dot of the
basename, unless every character between the last separator and that dot
is itself a dot (so ".bashrc" has no extension).  The returned extension
includes the leading dot, exactly as in Python. -/
def splitext (p : String) : String × String :=
  let cs := p.toList
  let sepIndex := lastIndexOf '/' cs
  let dotIndex := lastIndexOf '.' cs
  if dotIndex > sepIndex then
    let hasNonDot := cs.enum.any
      (fun q => decide (sepIndex < (q.1 : Int)) && decide ((q.1 : Int) < dotIndex) && q.2 != '.')
    if hasNonDot then
      (String.mk (cs.take dotIndex.toNat), String.mk (cs.drop dotIndex.toNat))
    else (p, "")
  else (p, "")

/-- Regex `\w` over the ASCII inputs in play here. -/
def isWordChar (c : Char) : Bool := c.isAlphanum || c == '_'

/-- Regex `\s` (Python whitespace class, ASCII part). -/
def isPySpace (c : Char) : Bool :=
  c == ' ' || c == '\t' || c == '\n' || c == '\x0d' || c == '\x0b' || c == '\x0c'

/-- Word boundary immediately after a prefix of length `n` of `p`:
end of string, or a non-word character follows. -/
def boundaryAfter (p : String) (n : Nat) : Bool :=
  match p.toList.drop n with
  | [] => true
  | c :: _ => !isWordChar c

/-- `re.match(r'\b(backup|copy)\b', p)` viewed as a boolean: `re.match`
anchors at position 0, and since both alternatives begin with a word
character the leading `\b` holds exactly when the literal is a prefix. -/
def matchKeywords (p : String) : Bool :=
  (leadsWith "backup".toList p.toList && boundaryAfter p 6) ||
  (leadsWith "copy".toList p.toList && boundaryAfter p 4)

/-- Remainder allowed by `(\s\d+)?$`: empty, or one whitespace character
followed by one or more digits. -/
def optSpaceDigits (rest : List Char) : Bool :=
  match rest with
  | [] => true
  | c :: ds => isPySpace c && !ds.isEmpty && ds.all (fun d => d.isDigit)

/-- `re.match(r'\b(backup|copy)\b(\s\d+)?$', p)` viewed as a boolean. -/
def matchKeywordsNum (p : String) : Bool :=
  (leadsWith "backup".toList p.toList && optSpaceDigits (p.toList.drop 6)) ||
  (leadsWith "copy".toList p.toList && optSpaceDigits (p.toList.drop 4))

/-- `isBackup(path)` (source lines 293-305).  Note the function receives
the full path `fpath`, not the bare filename: the first-character test and
both anchored regexes therefore look at the start of the absolute path.
`path.front`/`path.back` stand for `path[0]`/`path[-1]`, which is faithful
because every argument the script passes is a nonempty joined path. -/
def isBackup (path : String) : Bool :=
  if (firstIs path '~' || firstIs path '#') ||
     (lastIs path '~' || lastIs path '#') then true
  else
    let rootExt := splitext path
    if rootExt.2 == "bak" || rootExt.2 == "bkup" || rootExt.2 == "tmp" then true
    else if matchKeywords path then true
    else if matchKeywordsNum rootExt.1 then true
    else false

/-! ### The staleness oracle (`dirAlreadyUpToDate`, source lines 140-154) -/

/-- The ten stat fields as the tuple a Python `os.stat_result` compares
as. -/
def statTuple (s : Stat) : List Int :=
  [s.mode, s.ino, s.dev, s.nlink, s.uid, s.gid, s.size, s.atime, s.mtime, s.ctime]

/-- Lexicographic strict greater-than on integer lists, Python tuple
semantics. -/
def listGt : List Int → List Int → Bool
  | x :: xs, y :: ys =>
    if x > y then true else if x < y then false else listGt xs ys
  | _ :: _, [] => true
  | [], _ => false

/-- Python `d > s` on two `os.stat_result` values: the structseqs compare
as their ten-field tuples, so `st_mode` is compared first. -/
def statGt (d s : Stat) : Bool := listGt (statTuple d) (statTuple s)

/-- Lookup of a named child in a listing (`os.path.exists` on the joined
path, plus access to its node). -/
def lookupChild (children : List (String × FSNode)) (name : String) : Option FSNode :=
  match children.find? (fun pr => pr.1 == name) with
  | some pr => some pr.2
  | Option.none => Option.none

/-- `dirAlreadyUpToDate(path)` (source lines 140-154): raises `ValueError`
on a non-directory; returns False when the outfile is absent; otherwise
binds `dirModTime`/`ourModTime` (which the source never uses again) and
returns the result of `if (d > s): return False / return True` where `d`
and `s` are the two whole `os.stat` results. -/
def dirAlreadyUpToDate (outfile : String) : FSNode → Except Err Bool
  | .file _ _ _ => .error .valueError
  | .dir attrs children =>
    match lookupChild children outfile with
    | Option.none => .ok false
    | some c =>
      let _dirModTime := attrs.stat.mtime
      let _ourModTime := (statOf c).mtime
      if statGt attrs.stat (statOf c) then .ok false else .ok true

/-! ### Digests (`get_digest`, `get_str_digest`, `get_dir_digest`) -/

/-- `get_digest(path)` (source lines 330-341): stream the file in chunks
into sha-256 and return the hex digest, modelled as `Digest.fileHash` of
the whole content (chunking is invisible in the result).  A file whose
open or read raises yields `Unreadable`; the source has no handler, so
the exception propagates.  Opening a directory raises
`IsADirectoryError`, also mapped to `Unreadable`. -/
def get_digest : FSNode → Except Err Digest
  | .file _ readable content =>
    if readable then .ok (.fileHash content) else .error .unreadable
  | .dir _ _ => .error .unreadable

/-- `get_str_digest(s)` (source lines 343-348), modelled as the idealized
sha-256 of the string.  (In the Python 3 source, `h.update(s)` is handed a
`str` where `bytes` is required and would raise `TypeError`; the model
grants the evident `s.encode()` so the intended value can be examined.) -/
def get_str_digest (s : String) : Digest := .strHash s

/-- `get_dir_digest(path)` (source lines 307-328), as a function of the
listing of the directory named by its argument.  `SELF` calls
`get_digest` on the directory itself, which raises; `NAMES` digests the
sorted, newline-joined listing; `APX` falls off the end of the branch and
returns Python `None`; anything else returns the integer 0. -/
def get_dir_digest (opts : Options) (children : List (String × FSNode)) : Except Err Digest :=
  if opts.dirs == "SELF" then .error .unreadable
  else if opts.dirs == "NAMES" then
    .ok (get_str_digest (joinNL (sortNames (children.map (fun pr => pr.1)))))
  else if opts.dirs == "APX" then .ok .none
  else .ok (.num 0)

/-! ### The listing loop of `doOneDir` (source lines 171-210) -/

/-- The decision the body of the listing loop takes for one entry,
following the exact textual order of the source tests:
`.`/`..` continue (before any counter), hidden, backup, mount point,
symlink, then the directory/file branch. -/
inductive Decision where
  | dotSkip
  | skipHidden
  | skipBackup
  | skipMount
  | skipSymlink
  | includeDir
  | includeFile
deriving DecidableEq, Repr

/-- The chain of `continue` tests of the loop body (source lines 179-198),
first match wins. -/
def classifyEntry (opts : Options) (path f : String) (c : FSNode) : Decision :=
  if f == "." || f == ".." then .dotSkip
  else if !opts.hiddenFiles && firstIs f '.' then .skipHidden
  else if !opts.backupFiles && isBackup (joinPath path f) then .skipBackup
  else if isMountNode c then .skipMount
  else if !opts.links && isLinkNode c then .skipSymlink
  else if isDirNode c then .includeDir
  else .includeFile

/-- What one loop iteration contributes: which counter it bumps, the row
it appends (for included entries), and whether it invoked the file
signer. -/
inductive EntryOutcome where
  | dotSkip
  | hidden
  | backup
  | mount
  | symlink
  | includedFile (r : Row)
  | includedDir (r : Row)
deriving DecidableEq, Repr

/-- The row saved for an included entry (source lines 199-210): name (with
the trailing slash already appended for directories), plus mtime, size
and inode from `os.stat(fpath)` and the computed digest. -/
def mkRow (name : String) (c : FSNode) (d : Digest) : Row :=
  { modTime := (statOf c).mtime, size := (statOf c).size,
    ino := (statOf c).ino, name := name, dsig := d }

/-- One iteration of the listing loop.  `all` is the full listing of the
directory being processed; it is what `get_dir_digest(path)` sees, since
the source passes the parent `path` - not `fpath` - on line 196. -/
def stepEntry (opts : Options) (path : String) (all : List (String × FSNode))
    (f : String) (c : FSNode) : Except Err EntryOutcome :=
  match classifyEntry opts path f c with
  | .dotSkip => .ok .dotSkip
  | .skipHidden => .ok .hidden
  | .skipBackup => .ok .backup
  | .skipMount => .ok .mount
  | .skipSymlink => .ok .symlink
  | .includeDir =>
    match get_dir_digest opts all with
    | .error e => .error e
    | .ok d => .ok (.includedDir (mkRow (f ++ "/") c d))
  | .includeFile =>
    match get_digest c with
    | .error e => .error e
    | .ok d => .ok (.includedFile (mkRow f c d))

/-- Counter bumps of one iteration: every non-dot entry increments
`totalFiles`; each skip category increments its own counter except the
mount-point branch, which only prints a diagnostic; an included directory
increments `subdirs`. -/
def bumpCounts (o : EntryOutcome) (c : Counts) : Counts :=
  match o with
  | .dotSkip => c
  | .hidden => { c with totalFiles := c.totalFiles + 1, hiddenFiles := c.hiddenFiles + 1 }
  | .backup => { c with totalFiles := c.totalFiles + 1, backupFiles := c.backupFiles + 1 }
  | .mount => { c with totalFiles := c.totalFiles + 1 }
  | .symlink => { c with totalFiles := c.totalFiles + 1, symlinks := c.symlinks + 1 }
  | .includedFile _ => { c with totalFiles := c.totalFiles + 1 }
  | .includedDir _ => { c with totalFiles := c.totalFiles + 1, subdirs := c.subdirs + 1 }

/-- The row(s) an iteration appends to the manifest body. -/
def rowsOf (o : EntryOutcome) : List Row :=
  match o with
  | .includedFile r => [r]
  | .includedDir r => [r]
  | _ => []

/-- File-signer invocations of an iteration: `get_digest` runs exactly on
the included-file branch. -/
def callsOf (o : EntryOutcome) : Nat :=
  match o with
  | .includedFile _ => 1
  | _ => 0

/-- The whole listing loop over `os.listdir(path)`: left-to-right, the
first raised exception aborts the call. -/
def processEntries (opts : Options) (path : String) (all : List (String × FSNode)) :
    List (String × FSNode) → Except Err (Counts × List Row × Nat)
  | [] => .ok (⟨0, 0, 0, 0, 0⟩, [], 0)
  | (f, c) :: rest =>
    match stepEntry opts path all f c with
    | .error e => .error e
    | .ok o =>
      match processEntries opts path all rest with
      | .error e => .error e
      | .ok (cts, rows, k) => .ok (bumpCounts o cts, rowsOf o ++ rows, k + callsOf o)

/-! ### Timestamp rendering and the recursive build -/

/-- The constant `stat.ST_MTIME` of the Python `stat` module: the tuple
index 8, a plain integer. -/
def ST_MTIME : Int := 8

/-- `time.ctime(n)`, modelled as an injective rendering of its integer
argument (the exact local-time text is irrelevant to every claim; only
which argument is rendered matters). -/
def pyCtime (n : Int) : String := "ctime(" ++ toString n ++ ")"

/-- `str` of the float returned by `time.time()`, modelled as an injective
rendering of the integral build instant. -/
def floatStr (n : Int) : String := toString n ++ ".0"

/-- The `timeStamp` written into the manifest header (source lines
212-215): `ctime()` under `--ctime`, else `time()`. -/
def buildTimeStamp (ctimeMode : Bool) (now : Int) : String :=
  if ctimeMode then pyCtime now else floatStr now

/-- `getVolumeID(path)` (source lines 238-291) is an external,
platform-specific collaborator (it shells out to `diskutil`); it is
modelled as an opaque-but-total rendering of the path.  No claim treated
here depends on its value: every concrete run sets `noVolumeID`. -/
def getVolumeID (path : String) : String := "vol:" ++ path

/-- Assembly of the structured manifest from the values `doOneDir`
interpolates into its output template (source lines 217-235). -/
def mkManifest (opts : Options) (now : Int) (attrs : Attrs) (path : String)
    (cts : Counts) (rows : List Row) : Manifest :=
  { time := buildTimeStamp opts.ctime now,
    volumeSerialNumber := if opts.noVolumeID then "0" else getVolumeID path,
    inode := attrs.stat.ino,
    path := path,
    totalFiles := cts.totalFiles,
    hiddenFiles := cts.hiddenFiles,
    backupFiles := cts.backupFiles,
    symlinks := cts.symlinks,
    subdirs := cts.subdirs,
    rows := rows }

/-- The subdirectory enumeration of source line 161:
`[f.path for f in os.scandir(path) if f.is_dir()]`.  `DirEntry.is_dir()`
follows symbolic links, so symlinks that resolve to directories are
included. -/
def subdirPaths (path : String) (children : List (String × FSNode)) : List String :=
  (children.filter (fun pr => isDirNode pr.2)).map (fun pr => joinPath path pr.1)

/-- The recursion of source lines 160-163: call the builder on every
child that `is_dir()` reports (following symlinks), left to right,
discarding each returned manifest (the source drops the return value of
the nested `doOneDir` call) but accumulating file-signer invocations and
propagating the first exception. -/
def subdirRunsF (run : String → FSNode → Except Err (Manifest × Nat))
    (path : String) (children : List (String × FSNode)) : Except Err Nat :=
  children.foldl
    (fun acc pr =>
      match acc with
      | .error e => .error e
      | .ok k =>
        if isDirNode pr.2 then
          match run (joinPath path pr.1) pr.2 with
          | .error e => .error e
          | .ok r => .ok (k + r.2)
        else .ok k)
    (.ok 0)

/-- `doOneDir(pathArg)` (source lines 156-236).  The result pairs the
structured manifest (the source returns its serialized text, obtained
here as `encodeManifest opts.ctime` of the manifest) with the total
number of `get_digest` file-signer invocations performed during the call,
nested recursion included.  `fuel` models the Python recursion limit:
exhausting it is `RecursionError`.  Calling it on a non-directory raises
(`os.scandir`/`os.listdir` raise `NotADirectoryError`); `path` is the
already-absolute `os.path.abspath(pathArg)`. -/
def doOneDirF (opts : Options) (now : Int) (fuel : Nat) (path : String)
    (node : FSNode) : Except Err (Manifest × Nat) :=
  match fuel with
  | 0 => .error .recursionError
  | Nat.succ fuel2 =>
    match node with
    | .file _ _ _ => .error .notADirectory
    | .dir attrs children =>
      match (if opts.recursive then
              subdirRunsF (fun p n => doOneDirF opts now fuel2 p n) path children
             else Except.ok 0) with
      | .error e => .error e
      | .ok rcalls =>
        match processEntries opts path children children with
        | .error e => .error e
        | .ok (cts, rows, k) =>
          .ok (mkManifest opts now attrs path cts rows, rcalls + k)

/-! ### Serialization (the output template, source lines 199-235) -/

/-- Digest interpolation `"%s" % dsig`: the integer 0 prints as `0`,
Python `None` prints as `None`, and a hex digest prints as itself (its
idealized rendering here). -/
def digestStr (d : Digest) : String :=
  match d with
  | .num n => toString n
  | .none => "None"
  | .fileHash content => "sha256.file(" ++ content ++ ")"
  | .strHash s => "sha256.str(" ++ s ++ ")"

/-- The separator interpolated before the digest:
`" " if (dsig==0) else "\n      "` (source lines 206 and 210). -/
def sepFor (d : Digest) : String :=
  if d == Digest.num 0 then " " else "\n      "

/-- One `fSigs` line (source lines 201-210).  Under `--ctime` the source
executes `tm = ctime(stat.ST_MTIME)` - it renders the module constant
`stat.ST_MTIME` (the integer 8), not the entry mtime - and uses the
template without a trailing comma after the digest; under epoch mode it
interpolates the true `s[stat.ST_MTIME]` with a trailing comma. -/
def rowStr (ctimeMode : Bool) (r : Row) : String :=
  if ctimeMode then
    "    [ \"" ++ padLeft 24 (pyCtime ST_MTIME) ++ "\", "
      ++ padLeft 8 (toString r.size) ++ ", " ++ padLeft 9 (toString r.ino)
      ++ ", \"" ++ r.name ++ "\"," ++ sepFor r.dsig
      ++ "\"" ++ digestStr r.dsig ++ "\" ],\n"
  else
    "    [ " ++ padLeft 10 (toString r.modTime) ++ ", "
      ++ padLeft 8 (toString r.size) ++ ", " ++ padLeft 9 (toString r.ino)
      ++ ", \"" ++ r.name ++ "\"," ++ sepFor r.dsig
      ++ "\"" ++ digestStr r.dsig ++ "\", ],\n"

/-- The value of the global `spaces` (source lines 417-420): sixteen
blanks under `--ctime`, empty otherwise. -/
def spacesFor (ctimeMode : Bool) : String :=
  if ctimeMode then String.mk (List.replicate 16 ' ') else ""

/-- The serializer: the exact `buf` template of source lines 217-235,
with `fSigs[0:-2]` chopping the final comma-newline. -/
def encodeManifest (ctimeMode : Bool) (m : Manifest) : String :=
  let fSigs := String.join (m.rows.map (rowStr ctimeMode))
  "\x7b\n  \"generator\": \"checkSumDirs.py\",\n  \"time\": \"" ++ m.time
  ++ "\",\n  \"volumeSerialNumber\": \"" ++ m.volumeSerialNumber
  ++ "\",\n  \"inode\": \"" ++ toString m.inode
  ++ "\",\n  \"path\": \"" ++ m.path
  ++ "\",\n  \"totalFiles\": " ++ toString m.totalFiles
  ++ ",\n  \"hiddenFiles\": " ++ toString m.hiddenFiles
  ++ ",\n  \"backupFiles\": " ++ toString m.backupFiles
  ++ ",\n  \"symlinks\": " ++ toString m.symlinks
  ++ ",\n  \"subdirs\": " ++ toString m.subdirs
  ++ ",\n  \"files\": [\n    [    " ++ spacesFor ctimeMode
  ++ "\"mtime\",   \"size\",     \"ino\", \"filename\", \"dsig\",  ],\n"
  ++ chopLast2 fSigs
  ++ "\n  ]\n\x7d\n"

/-! ### Definitions following the words of the spec, for comparison -/

/-- Modelled from the spec (claim C3): the classifier rule order the
specification states - dot entries, hidden, mount point, symlink, backup,
first match wins - for comparison against the source order embedded in
`classifyEntry`. -/
def classifySpecOrder (opts : Options) (path f : String) (c : FSNode) : Decision :=
  if f == "." || f == ".." then .dotSkip
  else if !opts.hiddenFiles && firstIs f '.' then .skipHidden
  else if isMountNode c then .skipMount
  else if !opts.links && isLinkNode c then .skipSymlink
  else if !opts.backupFiles && isBackup (joinPath path f) then .skipBackup
  else if isDirNode c then .includeDir
  else .includeFile

/-- Modelled from the spec (claim C5): under the NAMES strategy the digest
recorded for a subdirectory entry should be the digest of the sorted,
newline-joined list of that subdirectory's own immediate eligible child
names. -/
def specDirDigestNAMES (childNames : List String) : Digest :=
  .strHash (joinNL (sortNames childNames))

/-! ### Concrete filesystem fixtures used by the theorems below -/

/-- A typical regular-file stat: `st_mode` 0o100644 = 33188. -/
def plainStat : Stat :=
  { mode := 33188, ino := 5, dev := 1, nlink := 1, uid := 501, gid := 20,
    size := 9, atime := 50, mtime := 60, ctime := 60 }

/-- Attributes of an ordinary (non-link, non-mount) entry. -/
def plainAttrs : Attrs := { isLink := false, isMount := false, stat := plainStat }

/-- An ordinary readable file. -/
def plainFile : FSNode := .file plainAttrs true "hello"

/-- A typical directory stat: `st_mode` 0o040755 = 16877, mtime 100. -/
def rootStat : Stat :=
  { mode := 16877, ino := 10, dev := 1, nlink := 3, uid := 501, gid := 20,
    size := 96, atime := 100, mtime := 100, ctime := 100 }

/-- Attributes of an ordinary directory. -/
def rootAttrs : Attrs := { isLink := false, isMount := false, stat := rootStat }

/-- Stat of a manifest file OLDER than its directory: mtime 50 against the
directory mtime 100 (regular-file mode 33188). -/
def c1ManifestStat : Stat :=
  { mode := 33188, ino := 11, dev := 1, nlink := 1, uid := 501, gid := 20,
    size := 500, atime := 50, mtime := 50, ctime := 50 }

/-- A directory (mtime 100) holding only a stale `.checkSums` (mtime 50). -/
def c1Dir : FSNode :=
  .dir rootAttrs
    [(".checkSums", .file { isLink := false, isMount := false, stat := c1ManifestStat } true "old")]

/-- The same directory with no manifest file at all. -/
def c1NoManifest : FSNode := .dir rootAttrs []

/-- Options of a recursive epoch-time run (`--recursive --epochtime`). -/
def c2Opts : Options := { defOpts with recursive := true, ctime := false }

/-- Stat of the content file `a`. -/
def c2FileStat : Stat :=
  { mode := 33188, ino := 21, dev := 1, nlink := 1, uid := 501, gid := 20,
    size := 1, atime := 90, mtime := 90, ctime := 90 }

/-- Stat of a FRESH manifest: mtime 200, newer than the directory mtime
100. -/
def c2FreshStat : Stat :=
  { mode := 33188, ino := 22, dev := 1, nlink := 1, uid := 501, gid := 20,
    size := 400, atime := 200, mtime := 200, ctime := 200 }

/-- Stat of a STALE manifest: mtime 50, older than the directory mtime
100. -/
def c2StaleStat : Stat :=
  { mode := 33188, ino := 22, dev := 1, nlink := 1, uid := 501, gid := 20,
    size := 400, atime := 50, mtime := 50, ctime := 50 }

/-- An unchanged directory carrying a fresh manifest and one content
file. -/
def c2Dir : FSNode :=
  .dir rootAttrs
    [(".checkSums", .file { isLink := false, isMount := false, stat := c2FreshStat } true "old"),
     ("a", .file { isLink := false, isMount := false, stat := c2FileStat } true "x")]

/-- The same directory but with the manifest stale. -/
def c2DirStale : FSNode :=
  .dir rootAttrs
    [(".checkSums", .file { isLink := false, isMount := false, stat := c2StaleStat } true "old"),
     ("a", .file { isLink := false, isMount := false, stat := c2FileStat } true "x")]

/-- The manifest row recorded for file `a`. -/
def c2RowA : Row :=
  { modTime := 90, size := 1, ino := 21, name := "a", dsig := Digest.fileHash "x" }

/-- The manifest a `c2Opts` run of `c2Dir` produces (the `.checkSums`
entry itself is skipped as hidden). -/
def c2M : Manifest :=
  { time := "0.0", volumeSerialNumber := "0", inode := 10, path := "/r",
    totalFiles := 2, hiddenFiles := 1, backupFiles := 0, symlinks := 0, subdirs := 0,
    rows := [c2RowA] }

/-- A symbolic link to a regular file. -/
def c3LinkFile : FSNode :=
  .file { isLink := true, isMount := false, stat := plainStat } true ""

/-- Options with the NAMES directory-digest strategy selected. -/
def c5Opts : Options := { defOpts with dirs := "NAMES" }

/-- Subdirectory `S`, whose only (eligible) child is the file `b`. -/
def c5Sub : FSNode := .dir plainAttrs [("b", plainFile)]

/-- Listing of the parent: subdirectory `S` and file `a`. -/
def c5Children : List (String × FSNode) :=
  [("S", c5Sub),
   ("a", .file { isLink := false, isMount := false, stat := c2FileStat } true "x")]

/-- The row the run records for the subdirectory entry `S`. -/
def c5RowS : Row :=
  { modTime := 60, size := 9, ino := 5, name := "S/", dsig := Digest.strHash "S\na" }

/-- The row the run records for the file entry `a`. -/
def c5RowA : Row :=
  { modTime := 90, size := 1, ino := 21, name := "a", dsig := Digest.fileHash "x" }

/-- An unreadable file (its `open`/`read` raises). -/
def c6BadFile : FSNode := .file plainAttrs false ""

/-- A directory whose only entry is the unreadable file `bad`. -/
def c6Tree : FSNode := .dir plainAttrs [("bad", c6BadFile)]

/-- A manifest row with entry mtime 100. -/
def c7Row1 : Row :=
  { modTime := 100, size := 5, ino := 7, name := "a", dsig := Digest.fileHash "x" }

/-- The same row except mtime 200. -/
def c7Row2 : Row :=
  { modTime := 200, size := 5, ino := 7, name := "a", dsig := Digest.fileHash "x" }

/-- A one-entry manifest whose entry has mtime 100. -/
def c7m1 : Manifest :=
  { time := "T", volumeSerialNumber := "0", inode := 1, path := "/p",
    totalFiles := 1, hiddenFiles := 0, backupFiles := 0, symlinks := 0, subdirs := 0,
    rows := [c7Row1] }

/-- The same manifest except its entry has mtime 200. -/
def c7m2 : Manifest :=
  { time := "T", volumeSerialNumber := "0", inode := 1, path := "/p",
    totalFiles := 1, hiddenFiles := 0, backupFiles := 0, symlinks := 0, subdirs := 0,
    rows := [c7Row2] }

/-- A manifest row with entry mtime 100 (claim C8 fixture). -/
def c8Row1 : Row :=
  { modTime := 100, size := 5, ino := 7, name := "b", dsig := Digest.fileHash "y" }

/-- The same row except mtime 200. -/
def c8Row2 : Row :=
  { modTime := 200, size := 5, ino := 7, name := "b", dsig := Digest.fileHash "y" }

/-- The manifest a default-options run of `c2Dir` produces (ctime
rendering of the build stamp). -/
def c9M : Manifest :=
  { time := "ctime(0)", volumeSerialNumber := "0", inode := 10, path := "/r",
    totalFiles := 2, hiddenFiles := 1, backupFiles := 0, symlinks := 0, subdirs := 0,
    rows := [c2RowA] }

/-- A symbolic link that resolves to a directory (empty). -/
def c10LinkDir : FSNode := .dir { isLink := true, isMount := false, stat := plainStat } []

/-- A parent listing whose only entry is the HIDDEN symlinked directory
`.s`. -/
def c10Children : List (String × FSNode) := [(".s", c10LinkDir)]

/-- Options of a recursive default run. -/
def c10Opts : Options := { defOpts with recursive := true }

/-- The manifest a `c10Opts` run of the parent produces: `.s` is counted
hidden-skipped, not symlink-skipped, and contributes no row. -/
def c10M : Manifest :=
  { time := "ctime(0)", volumeSerialNumber := "0", inode := 10, path := "/p",
    totalFiles := 1, hiddenFiles := 1, backupFiles := 0, symlinks := 0, subdirs := 0,
    rows := [] }

/-! ### General lemmas about the embedded engine -/

/-- Every successful listing-loop run satisfies the counts invariant: each
non-dot entry adds one to `totalFiles` and at most one to the four
category counters. -/
theorem processEntries_inv (opts : Options) (path : String) (all : List (String × FSNode)) :
    ∀ (l : List (String × FSNode)) (cts : Counts) (rows : List Row) (k : Nat),
      processEntries opts path all l = .ok (cts, rows, k) →
      cts.hiddenFiles + cts.backupFiles + cts.symlinks + cts.subdirs ≤ cts.totalFiles := by
  intro l
  induction l with
  | nil =>
    intro cts rows k h
    simp only [processEntries, Except.ok.injEq, Prod.mk.injEq] at h
    obtain ⟨h1, _, _⟩ := h
    subst h1
    simp
  | cons hd tl ih =>
    intro cts rows k h
    obtain ⟨f, c⟩ := hd
    simp only [processEntries] at h
    split at h
    · exact absurd h (by simp)
    next o hstep =>
      split at h
      · exact absurd h (by simp)
      next cts2 rows2 k2 hrec =>
        simp only [Except.ok.injEq, Prod.mk.injEq] at h
        obtain ⟨hc, _, _⟩ := h
        subst hc
        have hih := ih cts2 rows2 k2 hrec
        cases o <;> simp [bumpCounts] <;> omega

/-- An iteration that reaches the file branch on an unreadable file
raises the unhandled read error. -/
theorem stepEntry_unreadable (opts : Options) (path : String)
    (all : List (String × FSNode)) (f : String) (c : FSNode)
    (hclass : classifyEntry opts path f c = Decision.includeFile)
    (hbad : unreadableFile c = true) :
    stepEntry opts path all f c = .error Err.unreadable := by
  cases c with
  | file a r cont =>
    simp only [unreadableFile, Bool.not_eq_true'] at hbad
    subst hbad
    simp [stepEntry, hclass, get_digest]
  | dir a ch => simp [unreadableFile] at hbad

/-- If the listing contains an entry that the classifier includes as a
file but whose read fails, the whole listing loop raises. -/
theorem processEntries_unreadable (opts : Options) (path : String)
    (all : List (String × FSNode)) :
    ∀ (l : List (String × FSNode)) (f : String) (c : FSNode),
      (f, c) ∈ l →
      classifyEntry opts path f c = Decision.includeFile →
      unreadableFile c = true →
      ∃ e, processEntries opts path all l = .error e := by
  intro l
  induction l with
  | nil => intro f c hmem; exact absurd hmem (by simp)
  | cons hd tl ih =>
    intro f c hmem hclass hbad
    obtain ⟨g, d⟩ := hd
    rcases List.mem_cons.mp hmem with heq | htl
    · obtain ⟨hg, hd2⟩ := Prod.mk.injEq .. ▸ heq
      subst hg; subst hd2
      refine ⟨Err.unreadable, ?_⟩
      simp [processEntries, stepEntry_unreadable opts path all f c hclass hbad]
    · cases hstep : stepEntry opts path all g d with
      | error e => exact ⟨e, by simp [processEntries, hstep]⟩
      | ok o =>
        obtain ⟨e, he⟩ := ih f c htl hclass hbad
        exact ⟨e, by simp [processEntries, hstep, he]⟩

/-- The manifests `encodeManifest true` gives `c7m1` and `c7m2` the same
text: under the ctime rendering the per-entry mtime is never consulted
(every row prints `ctime(8)`). -/
theorem c7EncodeEq : encodeManifest true c7m1 = encodeManifest true c7m2 := rfl

/-- The two colliding manifests are nevertheless different values. -/
theorem c7ManifestNe : c7m1 ≠ c7m2 := by decide

/-! ### Claim theorems -/

/-- Claim C1 (code_bug).  The staleness oracle does return false when no
manifest exists, but on the stale fixture - manifest mtime 50 strictly
older than the directory mtime 100, where the claim requires false - it
returns true: the source compares the two whole `os.stat` tuples
(`if (d > s)`), and a directory `st_mode` (0o040755) is always below a
regular file `st_mode` (0o100644), so the mtimes never decide. -/
theorem c1_stat_tuple_compare_bug :
    dirAlreadyUpToDate ".checkSums" c1Dir = Except.ok true
  ∧ c1ManifestStat.mtime < rootStat.mtime
  ∧ dirAlreadyUpToDate ".checkSums" c1NoManifest = Except.ok false :=
  ⟨rfl, by decide, rfl⟩

/-- Claim C2 (code_bug).  On a directory whose on-disk manifest is fresh
(oracle reports true), a recursive `forceRebuild=false` run still invokes
the file signer once - `doOneDir` never calls `dirAlreadyUpToDate`, so
the run is identical on the stale twin: the existing manifest is never
reused and the digest count is not zero. -/
theorem c2_oracle_never_consulted_bug :
    dirAlreadyUpToDate ".checkSums" c2Dir = Except.ok true
  ∧ doOneDirF c2Opts 0 2 "/r" c2Dir = Except.ok (c2M, 1)
  ∧ doOneDirF c2Opts 0 2 "/r" c2DirStale = Except.ok (c2M, 1) :=
  ⟨rfl, rfl, rfl⟩

/-- Claim C3 counterexample.  An entry named `foo~` that is a symbolic
link: the claimed order (symlink before backup) would record it as
symlink-skipped, but the source tests backup before symlink and records
it as backup-skipped. -/
theorem c3_spec_order_cex :
    classifyEntry defOpts "/d" "foo~" c3LinkFile = Decision.skipBackup
  ∧ classifySpecOrder defOpts "/d" "foo~" c3LinkFile = Decision.skipSymlink
  ∧ Decision.skipBackup ≠ Decision.skipSymlink :=
  ⟨rfl, rfl, by decide⟩

/-- Claim C3 as amended.  The classifier applies its rules in the source
order dot-entries, hidden, BACKUP, mount point, symlink - first match
wins - and the hidden-before-backup consequence stands: a hidden backup
file such as `.foo~` is hidden-skipped, never backup-skipped. -/
theorem c3_rule_order (opts : Options) (path f : String) (c : FSNode)
    (hdot1 : f ≠ ".") (hdot2 : f ≠ "..")
    (hopth : opts.hiddenFiles = false) (hoptb : opts.backupFiles = false)
    (hoptl : opts.links = false) :
    (firstIs f '.' = true → classifyEntry opts path f c = Decision.skipHidden)
  ∧ (firstIs f '.' = false → isBackup (joinPath path f) = true →
      classifyEntry opts path f c = Decision.skipBackup)
  ∧ (firstIs f '.' = false → isBackup (joinPath path f) = false →
      isMountNode c = true → classifyEntry opts path f c = Decision.skipMount)
  ∧ (firstIs f '.' = false → isBackup (joinPath path f) = false →
      isMountNode c = false → isLinkNode c = true →
      classifyEntry opts path f c = Decision.skipSymlink)
  ∧ (classifyEntry opts "/d" ".foo~" c = Decision.skipHidden
      ∧ isBackup (joinPath "/d" ".foo~") = true) := by
  have h5 : firstIs ".foo~" '.' = true := rfl
  have h6 : isBackup (joinPath "/d" ".foo~") = true := rfl
  refine ⟨?_, ?_, ?_, ?_, ?_, h6⟩ <;>
    intros <;> simp_all [classifyEntry]

/-- Witness for the amended claim C3, at the plain name `x` and the
conflicting hidden-backup name `.foo~`. -/
theorem c3_rule_order_witness :
    classifyEntry defOpts "/d" ".foo~" plainFile = Decision.skipHidden
  ∧ isBackup (joinPath "/d" ".foo~") = true :=
  (c3_rule_order defOpts "/d" "x" plainFile (by decide) (by decide) rfl rfl rfl).2.2.2.2

/-- Claim C4 (code_bug).  `isBackup` misses `foo.bak` (it compares the
`splitext` result ".bak" - dot included - against "bak") and misses
`Copy 2 of foo` (anchored, case-sensitive match against the full path,
which starts with "/"); it does catch `#foo#` via the last character.
`foo.tmp` and the docstring example `foo backup 2.txt` fail the same way,
while a bare relative `backup 23` would match. -/
theorem c4_isBackup_bug :
    isBackup "/d/foo.bak" = false
  ∧ isBackup "/d/Copy 2 of foo" = false
  ∧ isBackup "/d/foo.tmp" = false
  ∧ isBackup "/d/#foo#" = true
  ∧ isBackup "/d/foo~" = true :=
  ⟨rfl, rfl, rfl, rfl, rfl⟩

/-- Claim C5 (code_bug).  Under the NAMES strategy, the digest recorded
for subdirectory entry `S` of parent `/p` is the hash of the PARENT's own
sorted full listing "S\na" (the source passes `path`, not `fpath`, to
`get_dir_digest`), not the hash of `S`'s eligible child names "b" that
the claim specifies. -/
theorem c5_parent_listing_digest_bug :
    processEntries c5Opts "/p" c5Children c5Children =
      Except.ok (⟨2, 0, 0, 0, 1⟩, [c5RowS, c5RowA], 1)
  ∧ c5RowS.dsig = get_str_digest (joinNL (sortNames ["S", "a"]))
  ∧ specDirDigestNAMES ["b"] = Digest.strHash "b"
  ∧ c5RowS.dsig ≠ specDirDigestNAMES ["b"] :=
  ⟨rfl, rfl, rfl, by decide⟩

/-- Claim C6 counterexample.  A directory whose single entry is an
unreadable file: the build call aborts with the read error instead of
recording the entry as skipped and returning a manifest. -/
theorem c6_abort_cex :
    doOneDirF defOpts 0 1 "/r" c6Tree = Except.error Err.unreadable := rfl

/-- Claim C6 as amended.  An unreadable individual file is NOT recovered:
`get_digest` has no handler, so the exception propagates and aborts the
whole build call whenever the listing contains an included-as-file entry
whose read fails. -/
theorem c6_unreadable_aborts (opts : Options) (now : Int) (fuel : Nat) (path : String)
    (attrs : Attrs) (children : List (String × FSNode)) (f : String) (c : FSNode)
    (hmem : (f, c) ∈ children)
    (hclass : classifyEntry opts path f c = Decision.includeFile)
    (hbad : unreadableFile c = true) :
    ∃ e, doOneDirF opts now fuel path (FSNode.dir attrs children) = Except.error e := by
  cases fuel with
  | zero => exact ⟨Err.recursionError, rfl⟩
  | succ fuel2 =>
    obtain ⟨e, he⟩ := processEntries_unreadable opts path children children f c hmem hclass hbad
    simp only [doOneDirF]
    split
    next e2 hsub => exact ⟨e2, rfl⟩
    next rcalls hsub =>
      rw [he]
      exact ⟨e, rfl⟩

/-- Witness for the amended claim C6 at the concrete one-entry tree. -/
theorem c6_unreadable_aborts_witness :
    ∃ e, doOneDirF defOpts 0 1 "/r" (FSNode.dir plainAttrs [("bad", c6BadFile)]) = Except.error e :=
  c6_unreadable_aborts defOpts 0 1 "/r" plainAttrs [("bad", c6BadFile)] "bad" c6BadFile
    (List.Mem.head _) rfl rfl

/-- Claim C7 counterexample.  Two manifests differing only in an entry
mtime encode to the same text under the default ctime rendering, so
`decode(encode(m)) == m` cannot hold for both. -/
theorem c7_roundtrip_cex :
    encodeManifest true c7m1 = encodeManifest true c7m2 ∧ c7m1 ≠ c7m2 :=
  ⟨c7EncodeEq, c7ManifestNe⟩

/-- Claim C7 as amended.  The source contains no decode operation, and
none can exist: the encoder is not injective (under the default ctime
rendering every entry mtime prints as the constant `ctime(8)`), so no
total decoder round-trips all manifests. -/
theorem c7_no_total_decoder :
    ¬ ∃ dec : String → Option Manifest,
        ∀ m : Manifest, dec (encodeManifest true m) = some m := by
  rintro ⟨dec, hdec⟩
  have h1 := hdec c7m1
  have h2 := hdec c7m2
  rw [c7EncodeEq] at h1
  exact c7ManifestNe (Option.some.inj (h1.symm.trans h2))

/-- Claim C8 (code_bug).  Two rows that differ only in their recorded
mtime (100 vs 200) render identically under the ctime option - the
source renders `ctime(stat.ST_MTIME)`, the module constant 8, for every
entry - while the epoch rendering distinguishes them; hence the two
renderings do not denote the same underlying modification time. -/
theorem c8_ctime_constant_bug :
    rowStr true c8Row1 = rowStr true c8Row2
  ∧ rowStr false c8Row1 ≠ rowStr false c8Row2
  ∧ c8Row1.modTime ≠ c8Row2.modTime :=
  ⟨rfl, by decide, by decide⟩

/-- Claim C9 (confirmed).  Every manifest a build call returns satisfies
the counts invariant: the four skip/subdir counters (all naturals, hence
non-negative) sum to at most `totalFiles`. -/
theorem c9_manifest_counts (opts : Options) (now : Int) (fuel : Nat) (path : String)
    (node : FSNode) (m : Manifest) (k : Nat)
    (h : doOneDirF opts now fuel path node = Except.ok (m, k)) :
    m.hiddenFiles + m.backupFiles + m.symlinks + m.subdirs ≤ m.totalFiles := by
  cases fuel with
  | zero => exact absurd h (by simp [doOneDirF])
  | succ fuel2 =>
    cases node with
    | file a r cont => exact absurd h (by simp [doOneDirF])
    | dir attrs children =>
      simp only [doOneDirF] at h
      split at h
      · exact absurd h (by simp)
      next rcalls hsub =>
        split at h
        · exact absurd h (by simp)
        next cts rows kk hpe =>
          simp only [Except.ok.injEq, Prod.mk.injEq] at h
          obtain ⟨hm, _⟩ := h
          subst hm
          have := processEntries_inv opts path children children cts rows kk hpe
          simpa [mkManifest] using this

/-- Witness for claim C9 at a concrete run with nonzero counts
(2 total, 1 hidden-skipped). -/
theorem c9_manifest_counts_witness :
    doOneDirF defOpts 0 1 "/r" c2Dir = Except.ok (c9M, 1)
  ∧ c9M.hiddenFiles + c9M.backupFiles + c9M.symlinks + c9M.subdirs ≤ c9M.totalFiles :=
  ⟨rfl, c9_manifest_counts defOpts 0 1 "/r" c2Dir c9M 1 rfl⟩

/-- Claim C10 counterexample.  A HIDDEN symlink-to-directory child `.s`:
the recursion list does include it (build descends), but it is counted
hidden-skipped - the symlink counter stays 0 - so it is not "counted as a
skipped symlink" as the claim states for every symlinked directory. -/
theorem c10_hidden_symlink_cex :
    subdirPaths "/p" c10Children = ["/p/.s"]
  ∧ doOneDirF c10Opts 0 2 "/p" (FSNode.dir rootAttrs c10Children) = Except.ok (c10M, 0)
  ∧ c10M.symlinks = 0 ∧ c10M.hiddenFiles = 1
  ∧ classifyEntry c10Opts "/p" ".s" c10LinkDir = Decision.skipHidden :=
  ⟨rfl, rfl, rfl, rfl, rfl⟩

/-- Claim C10 as amended.  With recursion on, every child that is a
symbolic link resolving to a directory appears in the subdirectory
enumeration (which follows symlinks), and - when no earlier rule (hidden,
backup, mount point) claims it and symlink inclusion is off - it is
classified symlink-skipped, contributing no manifest row. -/
theorem c10_symlinked_dir (opts : Options) (path f : String) (c : FSNode)
    (children all : List (String × FSNode))
    (hmem : (f, c) ∈ children) (hdir : isDirNode c = true)
    (hlink : isLinkNode c = true)
    (hhid : firstIs f '.' = false) (hback : isBackup (joinPath path f) = false)
    (hmnt : isMountNode c = false) (hlinks : opts.links = false) :
    joinPath path f ∈ subdirPaths path children
  ∧ classifyEntry opts path f c = Decision.skipSymlink
  ∧ stepEntry opts path all f c = Except.ok EntryOutcome.symlink := by
  have hne1 : f ≠ "." := by
    intro h; subst h; simp [firstIs] at hhid
  have hne2 : f ≠ ".." := by
    intro h; subst h; simp [firstIs] at hhid
  have hclass : classifyEntry opts path f c = Decision.skipSymlink := by
    simp_all [classifyEntry]
  refine ⟨?_, hclass, ?_⟩
  · unfold subdirPaths
    exact List.mem_map.mpr ⟨(f, c), List.mem_filter.mpr ⟨hmem, hdir⟩, rfl⟩
  · simp [stepEntry, hclass]

/-- Witness for the amended claim C10 at a non-hidden symlinked directory
`s`. -/
theorem c10_symlinked_dir_witness :
    joinPath "/p" "s" ∈ subdirPaths "/p" [("s", c10LinkDir)]
  ∧ classifyEntry defOpts "/p" "s" c10LinkDir = Decision.skipSymlink
  ∧ stepEntry defOpts "/p" [] "s" c10LinkDir = Except.ok EntryOutcome.symlink :=
  c10_symlinked_dir defOpts "/p" "s" c10LinkDir [("s", c10LinkDir)] []
    (List.Mem.head _) rfl rfl rfl rfl rfl rfl

end CheckSumDirs
